import Mathlib

/-!
Verification of the remote-connection layer of the git-documentdb
remote-nodegit plugin: credential resolution (`src/authentication.ts` /
`src/types.ts`), the transport error classifiers and the operations
`clone`, `fetch`, `push` with the post-push validation
(`src/remote-nodegit.ts`), in both the current plugin form and the legacy
in-tree form that carries the `checkHTTP` retry loop and the
`createCredential` resolver.

Strings coming back from the native transport are modelled as Lean
`String`s; the JS `String.prototype.startsWith` test and the one regex the
code uses are embedded as executable Boolean functions on the underlying
character lists.  File-system existence (`fs.existsSync`) and the native
transport calls are oracles passed in as functions, so every operation
becomes a pure function from its inputs and oracles to an outcome record
that also counts the native calls made and whether `repos.cleanup()` ran.
-/

namespace RemoteNodegit

/-- Embedding of JS `String.prototype.startsWith`: `p` is a prefix of `s`. -/
def jsStartsWith (s p : String) : Bool :=
  p.data.isPrefixOf s.data

/-- Embedding of JS falsiness on an optional string field: `undefined` and
the empty string are falsy (`!connection.personalAccessToken`). -/
def jsFalsy : Option String → Bool
  | none => true
  | some t => t == ""

/-- Embedding of `/^remote '.+?' does not exist/.test(error)`: the message
starts with `remote '`, and after those 8 characters there is a non-empty
run of non-line-terminator characters followed by `' does not exist`. -/
def remoteNotExistTest (s : String) : Bool :=
  jsStartsWith s ("remote '") &&
  (let rest := s.data.drop 8
   (List.range (rest.length + 1)).any (fun i =>
     decide (1 ≤ i) && ("' does not exist").data.isPrefixOf (rest.drop i) &&
     ((rest.take i).all (fun c => !(c == '\n' || c == '\r')))))

/-- Embedding of `remoteUrl.replace(/^https?:\/\//, '')`. -/
def stripHttpScheme (s : String) : String :=
  if jsStartsWith s ("https://") then ⟨s.data.drop 8⟩
  else if jsStartsWith s ("http://") then ⟨s.data.drop 7⟩
  else s

/-- Embedding of JS `String.prototype.split` with a one-character
separator (structural recursion, so that it evaluates in the kernel). -/
def jsSplitAux (sep : Char) : List Char → List Char → List String
  | [], acc => [⟨acc.reverse⟩]
  | x :: xs, acc =>
    if x = sep then ⟨acc.reverse⟩ :: jsSplitAux sep xs []
    else jsSplitAux sep xs (x :: acc)

/-- JS `s.split(sep)` for a single-character separator. -/
def jsSplit (s : String) (sep : Char) : List String :=
  jsSplitAux sep s.data []

/-- `SyncDirection` from `src/types.ts`. -/
inductive SyncDirection where
  | pull
  | push
  | both
  deriving DecidableEq

/-- `ConnectionSettingsGitHub` from `src/types.ts` (`type: 'github'`).
`privateRepository` models the optional `private` field (a reserved word
in Lean). -/
structure ConnectionSettingsGitHub where
  personalAccessToken : Option String
  privateRepository : Option Bool
  deriving DecidableEq

/-- `ConnectionSettingsSSH` from `src/types.ts` (`type: 'ssh'`); the paths
are `Option` because the code guards against `undefined` at runtime. -/
structure ConnectionSettingsSSH where
  privateKeyPath : Option String
  publicKeyPath : Option String
  passPhrase : Option String
  deriving DecidableEq

/-- The `ConnectionSettings` tagged union from `src/types.ts`. -/
inductive ConnectionSettings where
  | none
  | github (settings : ConnectionSettingsGitHub)
  | ssh (settings : ConnectionSettingsSSH)
  deriving DecidableEq

/-- `RemoteOptions` from `src/types.ts`; every field is optional there. -/
structure RemoteOptions where
  remoteUrl : Option String
  syncDirection : Option SyncDirection
  connection : Option ConnectionSettings
  deriving DecidableEq

/-- The flat error taxonomy of `src/error.ts` (both the current plugin's
`Err` namespace and the legacy one), restricted to the kinds the modelled
operations can construct.  `genericError` stands for a bare `new
Error(message)` escape. -/
inductive ErrKind where
  | invalidURLFormat (message : String)
  | resolvingAddress (message : String)
  | httpError401AuthorizationRequired (message : String)
  | httpError404NotFound (message : String)
  | invalidGitRemote (message : String)
  | cannotFetch (message : String)
  | pushPermissionDenied (message : String)
  | unfetchedCommitExists
  | noMergeBaseFound
  | gitFetchError (message : String)
  | gitPushError (message : String)
  | genericError (message : String)
  | invalidRepositoryURL (message : String)
  | undefinedPersonalAccessToken
  | invalidSSHKeyPath
  | cannotConnect (retry : Nat) (url : String)
  | cannotCloneRepository (message : String)
  deriving DecidableEq

/-- A credential value produced by the resolvers: either the
`Cred.userpassPlaintextNew(owner, token)` closure of the GitHub path or
the `Cred.sshKeyNew(user, pub, priv, passPhrase)` closure of the SSH
path.  The token may be `none`: the legacy resolver builds the closure
with `personalAccessToken!` even on the pull-only path. -/
inductive Cred where
  | userpassPlaintext (owner : String) (personalAccessToken : Option String)
  | sshKey (publicKeyPath privateKeyPath : Option String) (passPhrase : String)
  deriving DecidableEq

/-- The value `createCredentialCallback` returns: a bare
`new nodegit.RemoteCallbacks()` when no credential was built, or a
`{ credentials: cred }` object. -/
inductive Callbacks where
  | anonymous
  | withCredentials (cred : Cred)
  deriving DecidableEq

/-- `createCredentialForGitHub` of the current plugin
(`src/authentication.ts`, the resolver used by `createCredentialCallback`):
require an http(s) URL, return `undefined` (no credential) when the token
is falsy, then require `owner/repo` URL shape and build the
username/password credential.  The caller has matched
`connection.type === 'github'`, which the explicit `connection` argument
models. -/
def createCredentialForGitHub (options : RemoteOptions)
    (connection : ConnectionSettingsGitHub) : Except ErrKind (Option Cred) :=
  let url := options.remoteUrl.getD ""
  if !(jsStartsWith url ("http://") || jsStartsWith url ("https://")) then
    .error (.invalidURLFormat "http protocol required in createCredentialForGitHub")
  else if jsFalsy connection.personalAccessToken then
    .ok none
  else
    let urlArray := jsSplit (stripHttpScheme url) '/'
    if urlArray.length ≠ 3 then
      .error (.invalidRepositoryURL url)
    else
      .ok (some (.userpassPlaintext (urlArray.getD (urlArray.length - 2) "")
        connection.personalAccessToken))

/-- The legacy `createCredentialForGitHub` (the in-tree variant kept next
to the plugin sources): same URL checks, but between them it throws
`UndefinedPersonalAccessTokenError` when `syncDirection !== 'pull'` and
the token is falsy, and it always builds a credential otherwise. -/
def createCredentialForGitHubOld (options : RemoteOptions)
    (connection : ConnectionSettingsGitHub) : Except ErrKind Cred :=
  let url := options.remoteUrl.getD ""
  if !(jsStartsWith url ("http://") || jsStartsWith url ("https://")) then
    .error (.invalidURLFormat "http protocol required in createCredentialForGitHub")
  else if options.syncDirection ≠ some SyncDirection.pull ∧
      jsFalsy connection.personalAccessToken = true then
    .error .undefinedPersonalAccessToken
  else
    let urlArray := jsSplit (stripHttpScheme url) '/'
    if urlArray.length ≠ 3 then
      .error (.invalidRepositoryURL url)
    else
      .ok (.userpassPlaintext (urlArray.getD (urlArray.length - 2) "")
        connection.personalAccessToken)

/-- `createCredentialForSSH` (identical in both resolver generations):
each key path must be defined and exist on disk, checked private key
first; `passPhrase` defaults to the empty string.  `fsExistsSync` is the
`fs.existsSync` oracle. -/
def createCredentialForSSH (fsExistsSync : String → Bool)
    (connection : ConnectionSettingsSSH) : Except ErrKind Cred :=
  if connection.privateKeyPath = none ∨
      fsExistsSync (connection.privateKeyPath.getD "") = false then
    .error .invalidSSHKeyPath
  else if connection.publicKeyPath = none ∨
      fsExistsSync (connection.publicKeyPath.getD "") = false then
    .error .invalidSSHKeyPath
  else
    .ok (.sshKey connection.publicKeyPath connection.privateKeyPath
      (connection.passPhrase.getD ""))

/-- `createCredentialCallback` of the current plugin: defaults the
connection to `{ type: 'none' }`, dispatches on the connection type, and
wraps the credential — a bare `RemoteCallbacks` when no credential was
built (`none` connection, or GitHub without a token). -/
def createCredentialCallback (fsExistsSync : String → Bool)
    (options : RemoteOptions) : Except ErrKind Callbacks :=
  match options.connection.getD .none with
  | .github g =>
    match createCredentialForGitHub options g with
    | .error e => .error e
    | .ok none => .ok .anonymous
    | .ok (some cred) => .ok (.withCredentials cred)
  | .ssh s =>
    match createCredentialForSSH fsExistsSync s with
    | .error e => .error e
    | .ok cred => .ok (.withCredentials cred)
  | .none => .ok .anonymous

/-- The legacy `createCredential`: same dispatch, but the result is always
`{ credentials: cred }`, with `cred` possibly `undefined` (modelled as the
`Option`); the GitHub arm uses the legacy resolver with the token check. -/
def createCredentialOld (fsExistsSync : String → Bool)
    (options : RemoteOptions) : Except ErrKind (Option Cred) :=
  match options.connection.getD .none with
  | .github g =>
    match createCredentialForGitHubOld options g with
    | .error e => .error e
    | .ok cred => .ok (some cred)
  | .ssh s =>
    match createCredentialForSSH fsExistsSync s with
    | .error e => .error e
    | .ok cred => .ok (some cred)
  | .none => .ok none

/-- The error cascade of the current plugin's `fetch`
(`src/remote-nodegit.ts`): `none` is the no-error case; otherwise the
ordered `switch (true)` prefix rules run, first match wins, with
`CannotFetchError` as the catch-all. -/
def fetchClassify : Option String → Option ErrKind
  | none => none
  | some error =>
    if remoteNotExistTest error then
      some (.invalidGitRemote error)
    else if jsStartsWith error ("unsupported URL protocol") ||
        jsStartsWith error ("malformed URL") then
      some (.invalidURLFormat error)
    else if jsStartsWith error ("failed to send request") ||
        jsStartsWith error ("failed to resolve address") then
      some (.resolvingAddress error)
    else if jsStartsWith error ("unexpected HTTP status code: 401") ||
        jsStartsWith error ("request failed with status code: 401") ||
        jsStartsWith error ("Method connect has thrown an error") ||
        jsStartsWith error ("remote credential provider returned an invalid cred type") ||
        jsStartsWith error ("Failed to retrieve list of SSH authentication methods") ||
        jsStartsWith error ("too many redirects or authentication replays") then
      some (.httpError401AuthorizationRequired error)
    else if jsStartsWith error ("unexpected HTTP status code: 404") ||
        jsStartsWith error ("request failed with status code: 404") then
      some (.httpError404NotFound error)
    else
      some (.cannotFetch error)

/-- The race-condition message `push` special-cases inside its `.catch`. -/
def pushRaceMessage : String :=
  "cannot push because a reference that you are trying to update on the remote contains commits that are not present locally"

/-- The error cascade of the current plugin's `push` for a transport error
that is not the race message: note that every `4xx` status prefix
(including 401) lands on `HTTPError404NotFound`, the credential and
redirect-replay messages land on `PushPermissionDeniedError`, and the
fallback is a bare `Error`. -/
def pushErrorClassify (error : String) : ErrKind :=
  if jsStartsWith error ("unsupported URL protocol") ||
      jsStartsWith error ("failed to resolve address") ||
      jsStartsWith error ("failed to send request") then
    .invalidURLFormat error
  else if jsStartsWith error ("unexpected HTTP status code: 4") ||
      jsStartsWith error ("request failed with status code: 4") ||
      jsStartsWith error ("Method connect has thrown an error") then
    .httpError404NotFound error
  else if jsStartsWith error ("remote credential provider returned an invalid cred type") ||
      jsStartsWith error ("too many redirects or authentication replays") ||
      jsStartsWith error ("Error: ERROR: Permission to") then
    .pushPermissionDenied error
  else
    .genericError error

/-- Decidable equality for `Except` results, used by the outcome records
below. -/
instance instDecEqExcept {ε α : Type} [DecidableEq ε] [DecidableEq α] :
    DecidableEq (Except ε α)
  | .ok a, .ok b =>
    if h : a = b then .isTrue (by rw [h]) else
      .isFalse (fun hc => h (by cases hc; rfl))
  | .error a, .error b =>
    if h : a = b then .isTrue (by rw [h]) else
      .isFalse (fun hc => h (by cases hc; rfl))
  | .ok _, .error _ => .isFalse (fun hc => by cases hc)
  | .error _, .ok _ => .isFalse (fun hc => by cases hc)

/-- `CommitDistance`: the record `calcDistance` returns; fields are
`undefined` (`none`) when no merge base was found. -/
structure CommitDistance where
  ahead : Option Nat
  behind : Option Nat
  deriving DecidableEq

/-- `calcDistance` from `src/remote-nodegit.ts`: both fields `undefined`
when the base commit is `undefined`; otherwise each field is 1 when the
corresponding tip differs from the base and 0 when it equals it. -/
def calcDistance (baseCommitOid : Option String)
    (localCommitOid remoteCommitOid : String) : CommitDistance :=
  match baseCommitOid with
  | none => { ahead := none, behind := none }
  | some base =>
    { ahead := some (if localCommitOid ≠ base then 1 else 0)
      behind := some (if remoteCommitOid ≠ base then 1 else 0) }

/-- The repository-side collaborators `validatePushResult` consults:
`fetchError remoteName` is the error message of `repos.fetch(remoteName)`
(`none` on success), `resolveRef` is isomorphic-git's `resolveRef`, and
`findMergeBase a b` is the head of the array `git.findMergeBase` returns
(`none` when the array is empty, i.e. no common ancestor). -/
structure GitState where
  fetchError : String → Option String
  resolveRef : String → String
  findMergeBase : String → String → Option String

/-- `validatePushResult` from the current plugin: re-fetch the remote
named `origin`, resolve `HEAD` and `refs/remotes/origin/main` (both
literals in the source, whatever `push` was called with), take the merge
base, and fail with `NoMergeBaseFoundError` when there is none or with
`UnfetchedCommitExistsError` when the remote tip differs from the base. -/
def validatePushResult (st : GitState) : Except ErrKind Unit :=
  match st.fetchError ("origin") with
  | some message => .error (.gitFetchError message)
  | none =>
    let localCommitOid := st.resolveRef ("HEAD")
    let remoteCommitOid := st.resolveRef ("refs/remotes/origin/main")
    let baseCommitOid := st.findMergeBase localCommitOid remoteCommitOid
    let distance := calcDistance baseCommitOid localCommitOid remoteCommitOid
    match distance.behind with
    | none => .error .noMergeBaseFound
    | some behind => if behind > 0 then .error .unfetchedCommitExists else .ok ()

/-- Modelled from the spec's words for the post-push validation: identical
to `validatePushResult` except that it re-fetches the `remoteName` given
to `push` and compares against `refs/remotes/<remoteName>/<remoteBranch>`,
as the spec describes.  Kept separately to compare against the source's
fixed-ref behaviour. -/
def validatePushResultPerSpec (st : GitState)
    (remoteName remoteBranch : String) : Except ErrKind Unit :=
  match st.fetchError remoteName with
  | some message => .error (.gitFetchError message)
  | none =>
    let localCommitOid := st.resolveRef ("HEAD")
    let remoteCommitOid :=
      st.resolveRef ("refs/remotes/" ++ remoteName ++ "/" ++ remoteBranch)
    let baseCommitOid := st.findMergeBase localCommitOid remoteCommitOid
    let distance := calcDistance baseCommitOid localCommitOid remoteCommitOid
    match distance.behind with
    | none => .error .noMergeBaseFound
    | some behind => if behind > 0 then .error .unfetchedCommitExists else .ok ()

/-- Outcome of one `fetch` invocation: the result, how many native
`repos.fetch` calls were made, and whether `repos.cleanup()` ran. -/
structure FetchOutcome where
  result : Except ErrKind Unit
  nativeFetchCalls : Nat
  cleanupCalled : Bool
  deriving DecidableEq

/-- The current plugin's `fetch`: open, build callbacks (errors there
propagate before any native call), run the native fetch once with the
rejection captured, `repos.cleanup()` unconditionally, then classify.
`nativeFetch remoteName` is the native call's error message oracle. -/
def fetch (fsExistsSync : String → Bool) (nativeFetch : String → Option String)
    (remoteOptions : RemoteOptions) (remoteName : String) : FetchOutcome :=
  match createCredentialCallback fsExistsSync remoteOptions with
  | .error e => { result := .error e, nativeFetchCalls := 0, cleanupCalled := false }
  | .ok _ =>
    match fetchClassify (nativeFetch remoteName) with
    | none => { result := .ok (), nativeFetchCalls := 1, cleanupCalled := true }
    | some e => { result := .error e, nativeFetchCalls := 1, cleanupCalled := true }

/-- The legacy `fetch` (the variant kept next to the plugin sources): the
native fetch's rejection is rethrown as `GitFetchError` inside `.catch`,
so the `repos.cleanup()` after it is reached only on success. -/
def fetchLegacy (fsExistsSync : String → Bool)
    (nativeFetch : String → Option String)
    (remoteOptions : RemoteOptions) : FetchOutcome :=
  match createCredentialOld fsExistsSync remoteOptions with
  | .error e => { result := .error e, nativeFetchCalls := 0, cleanupCalled := false }
  | .ok _ =>
    match nativeFetch ("origin") with
    | some message =>
      { result := .error (.gitFetchError message), nativeFetchCalls := 1
        cleanupCalled := false }
    | none => { result := .ok (), nativeFetchCalls := 1, cleanupCalled := true }

/-- What the native `remote.push` resolved to: a number (success) or a
rejection with a message. -/
inductive PushNativeResult where
  | success (code : Int)
  | failure (message : String)

/-- Outcome of one `push` invocation. -/
structure PushOutcome where
  result : Except ErrKind Unit
  cleanupCalled : Bool
  deriving DecidableEq

/-- The current plugin's `push`: build callbacks, push
`localBranch:remoteBranch` to `remoteName` (the oracle receives both), map
the race message to `UnfetchedCommitExistsError` inside `.catch`, run
`repos.cleanup()` in `.finally` (so on every outcome of the native call),
then classify a captured error or run `validatePushResult`. -/
def push (fsExistsSync : String → Bool) (remoteOptions : RemoteOptions)
    (remoteName localBranch remoteBranch : String)
    (nativePush : String → String → PushNativeResult)
    (st : GitState) : PushOutcome :=
  match createCredentialCallback fsExistsSync remoteOptions with
  | .error e => { result := .error e, cleanupCalled := false }
  | .ok _ =>
    match nativePush remoteName (localBranch ++ ":" ++ remoteBranch) with
    | .failure message =>
      if jsStartsWith message pushRaceMessage then
        { result := .error .unfetchedCommitExists, cleanupCalled := true }
      else
        { result := .error (pushErrorClassify message), cleanupCalled := true }
    | .success _ =>
      { result := validatePushResult st, cleanupCalled := true }

/-- The legacy `push`: fixed `origin` and `refs/heads/main:refs/heads/main`,
errors rethrown inside `.catch` (race message or `GitPushError`), and
`repos.cleanup()` only at the very end, after `validatePushResult` — so no
release on any failing path. -/
def pushLegacy (fsExistsSync : String → Bool) (remoteOptions : RemoteOptions)
    (nativePush : PushNativeResult) (st : GitState) : PushOutcome :=
  match createCredentialOld fsExistsSync remoteOptions with
  | .error e => { result := .error e, cleanupCalled := false }
  | .ok _ =>
    match nativePush with
    | .failure message =>
      if jsStartsWith message pushRaceMessage then
        { result := .error .unfetchedCommitExists, cleanupCalled := false }
      else
        { result := .error (.gitPushError message), cleanupCalled := false }
    | .success _ =>
      match validatePushResult st with
      | .error e => { result := .error e, cleanupCalled := false }
      | .ok _ => { result := .ok (), cleanupCalled := true }

/-- Outcome of one `clone` invocation: the result, how many times a
credential resolver ran, and how many native clone transports started. -/
structure CloneOutcome where
  result : Except ErrKind Unit
  credentialResolutions : Nat
  transportCalls : Nat
  deriving DecidableEq

/-- The current plugin's `clone`: a guard returns silently when
`remoteOptions` or `remoteUrl` is `undefined` or the URL is empty;
otherwise callbacks are built and the native clone runs once, its
rejection wrapped as `CannotCloneRepositoryError(err.message)`. -/
def clone (fsExistsSync : String → Bool) (remoteOptions : Option RemoteOptions)
    (nativeClone : Option String) : CloneOutcome :=
  match remoteOptions with
  | none => { result := .ok (), credentialResolutions := 0, transportCalls := 0 }
  | some options =>
    match options.remoteUrl with
    | none => { result := .ok (), credentialResolutions := 0, transportCalls := 0 }
    | some url =>
      if url = "" then
        { result := .ok (), credentialResolutions := 0, transportCalls := 0 }
      else
        match createCredentialCallback fsExistsSync options with
        | .error e =>
          { result := .error e, credentialResolutions := 1, transportCalls := 0 }
        | .ok _ =>
          match nativeClone with
          | none =>
            { result := .ok (), credentialResolutions := 1, transportCalls := 1 }
          | some errMessage =>
            { result := .error (.cannotCloneRepository errMessage)
              credentialResolutions := 1, transportCalls := 1 }

/-- `NETWORK_RETRY` from `src/const.ts`. -/
def NETWORK_RETRY : Nat := 3

/-- `NETWORK_RETRY_INTERVAL` from `src/const.ts` (milliseconds). -/
def NETWORK_RETRY_INTERVAL : Nat := 2000

/-- `NETWORK_TIMEOUT` from `src/const.ts` (milliseconds). -/
def NETWORK_TIMEOUT : Nat := 7000

/-- The legacy `clone`'s retry loop
`for (; retry < NETWORK_RETRY; retry++) { result = await checkHTTP(...); if (result.ok) break; await sleep(...); }`
run with the loop counter `retry` and the remaining iteration budget as
fuel.  `checkHTTP n` is the oracle for the n-th attempt's `result.ok`.
Returns the final value of `retry`, the number of `checkHTTP` calls made,
and whether the loop exited with `result.ok`. -/
def checkHTTPLoop (checkHTTP : Nat → Bool) : Nat → Nat → Nat × Nat × Bool
  | retry, 0 => (retry, 0, false)
  | retry, fuel + 1 =>
    if checkHTTP retry then (retry, 1, true)
    else
      match checkHTTPLoop checkHTTP (retry + 1) fuel with
      | (retryFinal, attempts, ok) => (retryFinal, attempts + 1, ok)

/-- Outcome of one legacy `clone` invocation. -/
structure CloneLegacyOutcome where
  result : Except ErrKind Unit
  checkHTTPCalls : Nat
  nativeCloneCalls : Nat
  deriving DecidableEq

/-- The legacy `clone` with the `checkHTTP` retry loop (`networkRetry`
instantiates `NETWORK_RETRY`): when the loop never sees `result.ok` it
throws `CannotConnectError(retry, url, ...)` with the final loop counter;
otherwise the native clone runs once, a rejection becoming
`CannotCloneRepositoryError(remoteUrl)` immediately (not retried). -/
def cloneLegacy (networkRetry : Nat) (checkHTTP : Nat → Bool)
    (remoteUrl : String) (nativeClone : Option String) : CloneLegacyOutcome :=
  if remoteUrl = "" then
    { result := .ok (), checkHTTPCalls := 0, nativeCloneCalls := 0 }
  else
    match checkHTTPLoop checkHTTP 0 networkRetry with
    | (retryFinal, attempts, ok) =>
      if !ok then
        { result := .error (.cannotConnect retryFinal remoteUrl)
          checkHTTPCalls := attempts, nativeCloneCalls := 0 }
      else
        match nativeClone with
        | some _ =>
          { result := .error (.cannotCloneRepository remoteUrl)
            checkHTTPCalls := attempts, nativeCloneCalls := 1 }
        | none =>
          { result := .ok (), checkHTTPCalls := attempts, nativeCloneCalls := 1 }

/-- Repository state with a diverged remote tip: local HEAD `oidLocal`,
fetched remote tip `oidRemote`, merge base `oidBase`. -/
def c1StateConflict : GitState :=
  { fetchError := fun _ => none
    resolveRef := fun ref => if ref = "HEAD" then "oidLocal" else "oidRemote"
    findMergeBase := fun _ _ => some "oidBase" }

/-- Repository state whose fetched remote tip equals the merge base. -/
def c1StateClean : GitState :=
  { fetchError := fun _ => none
    resolveRef := fun ref => if ref = "HEAD" then "oidLocal" else "oidBase"
    findMergeBase := fun _ _ => some "oidBase" }

/-- Repository state with no common ancestor between the tips. -/
def c1StateNoBase : GitState :=
  { fetchError := fun _ => none
    resolveRef := fun _ => "oid"
    findMergeBase := fun _ _ => none }

/-- Repository state where `refs/remotes/origin/main` sits at the merge
base but every other remote-tracking ref holds a different commit. -/
def c6State : GitState :=
  { fetchError := fun _ => none
    resolveRef := fun ref =>
      if ref = "HEAD" then "oidLocal"
      else if ref = "refs/remotes/origin/main" then "oidBase"
      else "oidOther"
    findMergeBase := fun _ _ => some "oidBase" }

/-- GitHub connection without a token, push direction, well-formed URL. -/
def c4Options : RemoteOptions :=
  { remoteUrl := some "https://github.com/user/repo"
    syncDirection := some .push
    connection := some (.github { personalAccessToken := none, privateRepository := none }) }

/-- The same configuration with `syncDirection = 'pull'`. -/
def c4PullOptions : RemoteOptions :=
  { remoteUrl := some "https://github.com/user/repo"
    syncDirection := some .pull
    connection := some (.github { personalAccessToken := none, privateRepository := none }) }

/-- Options with `connection: { type: 'none' }`. -/
def c7Options : RemoteOptions :=
  { remoteUrl := some "https://github.com/user/repo"
    syncDirection := none
    connection := some .none }

/-- SSH settings whose two key files exist under `c8Fs`. -/
def c8SshGood : ConnectionSettingsSSH :=
  { privateKeyPath := some "/keys/id", publicKeyPath := some "/keys/id.pub"
    passPhrase := none }

/-- SSH settings whose private key path does not exist under `c8Fs`. -/
def c8SshBad : ConnectionSettingsSSH :=
  { privateKeyPath := some "/missing/id", publicKeyPath := some "/keys/id.pub"
    passPhrase := none }

/-- File-system oracle for the SSH fixtures. -/
def c8Fs : String → Bool := fun p => p = "/keys/id" || p = "/keys/id.pub"

/-- Options carrying `c8SshGood`. -/
def c8OptionsGood : RemoteOptions :=
  { remoteUrl := some "git@github.com:user/repo.git"
    syncDirection := none
    connection := some (.ssh c8SshGood) }

/-- Options carrying `c8SshBad`. -/
def c8OptionsBad : RemoteOptions :=
  { remoteUrl := some "git@github.com:user/repo.git"
    syncDirection := none
    connection := some (.ssh c8SshBad) }

/-- An Ubuntu-style 401 message as reported through the push path. -/
def push401Message : String := "unexpected HTTP status code: 401 Unauthorized"

/-- The authentication-replay message. -/
def pushReplaysMessage : String := "too many redirects or authentication replays"

/-- The regex `/^remote '.+?' does not exist/` accepts the message libgit2
produces for any non-empty remote name without line terminators. -/
theorem remoteNotExistTest_matches (name : String) (h1 : name.data ≠ [])
    (h2 : ∀ c ∈ name.data, ¬(c = '\n' ∨ c = '\r')) :
    remoteNotExistTest ("remote '" ++ name ++ "' does not exist") = true := by
  unfold remoteNotExistTest jsStartsWith
  have hdata : ("remote '" ++ name ++ "' does not exist").data
      = "remote '".data ++ (name.data ++ "' does not exist".data) := by
    simp [String.data_append]
  rw [hdata]
  simp only [Bool.and_eq_true]
  refine ⟨?_, ?_⟩
  · rw [List.isPrefixOf_iff_prefix]
    exact List.prefix_append _ _
  · have hdrop : ("remote '".data ++ (name.data ++ "' does not exist".data)).drop 8
        = name.data ++ "' does not exist".data := by
      have h8 : ("remote '".data).length = 8 := by decide
      rw [← h8, List.drop_left]
    simp only [hdrop]
    rw [List.any_eq_true]
    refine ⟨name.data.length, ?_, ?_⟩
    · rw [List.mem_range]
      have key : ∀ (l₁ l₂ : List Char), l₁.length < (l₁ ++ l₂).length + 1 := by
        intro l₁ l₂
        rw [List.length_append]
        omega
      exact key _ _
    · simp only [Bool.and_eq_true, decide_eq_true_eq]
      refine ⟨⟨?_, ?_⟩, ?_⟩
      · have := List.length_pos.mpr h1
        omega
      · rw [List.drop_left, List.isPrefixOf_iff_prefix]
      · rw [List.take_left, List.all_eq_true]
        intro c hc
        have hcc := h2 c hc
        simp only [Bool.not_eq_true']
        simp only [Bool.or_eq_false_iff]
        refine ⟨?_, ?_⟩ <;> rw [beq_eq_false_iff_ne] <;> tauto

/-- The legacy retry loop under an always-failing `checkHTTP`: the loop
body runs exactly `fuel` times and the counter ends at `retry + fuel`. -/
theorem checkHTTPLoop_never_ok (fuel : Nat) : ∀ retry : Nat,
    checkHTTPLoop (fun _ => false) retry fuel = (retry + fuel, fuel, false) := by
  induction fuel with
  | zero => intro retry; rfl
  | succ n ih =>
    intro retry
    unfold checkHTTPLoop
    rw [ih (retry + 1)]
    simp only [Bool.false_eq_true, if_false]
    refine congrArg (fun k => (k, n + 1, false)) ?_
    omega

/-- Claim C5: `calcDistance` returns `{ ahead: undefined, behind:
undefined }` exactly when the base commit is `undefined`; otherwise
`ahead` is 1 when the local tip differs from the base and 0 when it
equals it, `behind` likewise for the remote tip, and each defined field
is only ever 0 or 1. -/
theorem c5_calcDistance_spec (baseCommitOid : Option String)
    (localCommitOid remoteCommitOid : String) :
    (calcDistance none localCommitOid remoteCommitOid
       = { ahead := none, behind := none }) ∧
    (∀ base, calcDistance (some base) localCommitOid remoteCommitOid
       = { ahead := some (if localCommitOid ≠ base then 1 else 0)
           behind := some (if remoteCommitOid ≠ base then 1 else 0) }) ∧
    (((calcDistance baseCommitOid localCommitOid remoteCommitOid).ahead = none ∧
      (calcDistance baseCommitOid localCommitOid remoteCommitOid).behind = none) ↔
      baseCommitOid = none) ∧
    (∀ base,
      (calcDistance (some base) localCommitOid remoteCommitOid).ahead
        ∈ ([some 0, some 1] : List (Option Nat)) ∧
      (calcDistance (some base) localCommitOid remoteCommitOid).behind
        ∈ ([some 0, some 1] : List (Option Nat))) := by
  refine ⟨rfl, fun base => rfl, ?_, ?_⟩
  · cases baseCommitOid with
    | none => simp [calcDistance]
    | some base => simp [calcDistance]
  · intro base
    constructor <;> by_cases h1 : localCommitOid = base <;>
      by_cases h2 : remoteCommitOid = base <;> simp [calcDistance, h1, h2]

/-- Claim C10: `clone` with `remoteOptions` absent, or with `remoteUrl`
absent or empty, resolves successfully while performing no credential
resolution and no transport call. -/
theorem c10_clone_noop_on_missing_url (fsExistsSync : String → Bool)
    (nativeClone : Option String) (syncDirection : Option SyncDirection)
    (connection : Option ConnectionSettings) :
    clone fsExistsSync none nativeClone
      = { result := .ok (), credentialResolutions := 0, transportCalls := 0 } ∧
    clone fsExistsSync (some ⟨none, syncDirection, connection⟩) nativeClone
      = { result := .ok (), credentialResolutions := 0, transportCalls := 0 } ∧
    clone fsExistsSync (some ⟨some "", syncDirection, connection⟩) nativeClone
      = { result := .ok (), credentialResolutions := 0, transportCalls := 0 } := by
  refine ⟨rfl, rfl, ?_⟩
  unfold clone
  simp

/-- Claim C1: with a post-push re-fetch that reports no error,
`validatePushResult` throws `UnfetchedCommitExistsError` exactly when the
fetched remote tip differs from the merge base of local `HEAD` and that
tip, throws `NoMergeBaseFoundError` when no merge base exists, and
returns normally when the remote tip equals the merge base. -/
theorem c1_validatePushResult_conflict_iff (st : GitState)
    (hfetch : st.fetchError ("origin") = none) :
    (∀ base, st.findMergeBase (st.resolveRef ("HEAD"))
        (st.resolveRef ("refs/remotes/origin/main")) = some base →
      ((validatePushResult st = .error .unfetchedCommitExists ↔
          st.resolveRef ("refs/remotes/origin/main") ≠ base) ∧
        (st.resolveRef ("refs/remotes/origin/main") = base →
          validatePushResult st = .ok ()))) ∧
    (st.findMergeBase (st.resolveRef ("HEAD"))
        (st.resolveRef ("refs/remotes/origin/main")) = none →
      validatePushResult st = .error .noMergeBaseFound) := by
  unfold validatePushResult
  rw [hfetch]
  dsimp only
  refine ⟨?_, ?_⟩
  · intro base hbase
    rw [hbase]
    refine ⟨?_, ?_⟩
    · by_cases hr : st.resolveRef ("refs/remotes/origin/main") = base <;>
        simp [calcDistance, hr]
    · intro hr
      simp [calcDistance, hr]
  · intro hnone
    rw [hnone]
    simp [calcDistance]

/-- Witness for C1 at three concrete repository states. -/
theorem c1_validatePushResult_conflict_iff_witness :
    validatePushResult c1StateConflict = .error .unfetchedCommitExists ∧
    validatePushResult c1StateClean = .ok () ∧
    validatePushResult c1StateNoBase = .error .noMergeBaseFound := by
  refine ⟨?_, ?_, ?_⟩
  · exact ((c1_validatePushResult_conflict_iff c1StateConflict rfl).1
      ("oidBase") rfl).1.mpr (by decide)
  · exact ((c1_validatePushResult_conflict_iff c1StateClean rfl).1
      ("oidBase") rfl).2 (by decide)
  · exact (c1_validatePushResult_conflict_iff c1StateNoBase rfl).2 rfl

/-- Counterexample to C2: with `NETWORK_RETRY = 3` and an always-failing
`checkHTTP`, the legacy `clone` invokes the attempt exactly 3 times — the
configured retry bound itself, not `retry + 1 = 4` — before throwing
`CannotConnectError` annotated with 3. -/
theorem c2_retry_count_counterexample :
    (cloneLegacy NETWORK_RETRY (fun _ => false)
      ("https://example.com/user/repo") none).checkHTTPCalls = 3 ∧
    (cloneLegacy NETWORK_RETRY (fun _ => false)
      ("https://example.com/user/repo") none).result
        = .error (.cannotConnect 3 ("https://example.com/user/repo")) ∧
    NETWORK_RETRY = 3 ∧ (3 : Nat) ≠ NETWORK_RETRY + 1 := by decide

/-- Claim C2 as amended: under an always-failing network probe the legacy
`clone` invokes `checkHTTP` exactly `networkRetry` times (the configured
bound, not `networkRetry + 1`) and throws `CannotConnectError` annotated
with that same count; and a failure of the native clone itself is never
retried — it throws `CannotCloneRepositoryError` after exactly one
transport call. -/
theorem c2_amended_retry_semantics (networkRetry : Nat) (remoteUrl : String)
    (hurl : remoteUrl ≠ "") (nativeClone : Option String) (message : String) :
    cloneLegacy networkRetry (fun _ => false) remoteUrl nativeClone
      = { result := .error (.cannotConnect networkRetry remoteUrl)
          checkHTTPCalls := networkRetry, nativeCloneCalls := 0 } ∧
    cloneLegacy (networkRetry + 1) (fun _ => true) remoteUrl (some message)
      = { result := .error (.cannotCloneRepository remoteUrl)
          checkHTTPCalls := 1, nativeCloneCalls := 1 } := by
  refine ⟨?_, ?_⟩
  · unfold cloneLegacy
    rw [if_neg hurl, checkHTTPLoop_never_ok]
    simp
  · unfold cloneLegacy
    rw [if_neg hurl]
    unfold checkHTTPLoop
    simp

/-- Witness for the amended C2 at the configured bound `NETWORK_RETRY`. -/
theorem c2_amended_retry_semantics_witness :
    cloneLegacy 3 (fun _ => false) ("https://example.com/user/repo") none
      = { result := .error (.cannotConnect 3 ("https://example.com/user/repo"))
          checkHTTPCalls := 3, nativeCloneCalls := 0 } ∧
    cloneLegacy 4 (fun _ => true) ("https://example.com/user/repo") (some ("boom"))
      = { result := .error (.cannotCloneRepository ("https://example.com/user/repo"))
          checkHTTPCalls := 1, nativeCloneCalls := 1 } := by
  have h := c2_amended_retry_semantics 3 ("https://example.com/user/repo")
    (by decide) none ("boom")
  exact ⟨h.1, h.2⟩

/-- Counterexample to C3: the push path classifies a message beginning
`unexpected HTTP status code: 401` as `HTTPError404NotFound` — not as an
HTTP-401 error — and classifies the authentication-replay message as
`PushPermissionDeniedError`. -/
theorem c3_push_401_counterexample :
    pushErrorClassify push401Message = .httpError404NotFound push401Message ∧
    pushErrorClassify push401Message
      ≠ .httpError401AuthorizationRequired push401Message ∧
    pushErrorClassify pushReplaysMessage = .pushPermissionDenied pushReplaysMessage ∧
    pushErrorClassify pushReplaysMessage
      ≠ .httpError401AuthorizationRequired pushReplaysMessage := by decide

/-- Claim C3 as amended: messages reporting HTTP status 401 (either
platform variant) and the authentication-replay message are classified
`HTTPError401AuthorizationRequired` by the fetch path, never a later rule;
the push path instead classifies the 401-status variants as
`HTTPError404NotFound` and the replay message as
`PushPermissionDeniedError` — in all cases never the catch-all. -/
theorem c3_amended_401_classification (rest : List Char) :
    fetchClassify (some ⟨("unexpected HTTP status code: 401").data ++ rest⟩)
      = some (.httpError401AuthorizationRequired
          ⟨("unexpected HTTP status code: 401").data ++ rest⟩) ∧
    fetchClassify (some ⟨("request failed with status code: 401").data ++ rest⟩)
      = some (.httpError401AuthorizationRequired
          ⟨("request failed with status code: 401").data ++ rest⟩) ∧
    fetchClassify (some ⟨("too many redirects or authentication replays").data ++ rest⟩)
      = some (.httpError401AuthorizationRequired
          ⟨("too many redirects or authentication replays").data ++ rest⟩) ∧
    pushErrorClassify ⟨("unexpected HTTP status code: 401").data ++ rest⟩
      = .httpError404NotFound ⟨("unexpected HTTP status code: 401").data ++ rest⟩ ∧
    pushErrorClassify ⟨("request failed with status code: 401").data ++ rest⟩
      = .httpError404NotFound ⟨("request failed with status code: 401").data ++ rest⟩ ∧
    pushErrorClassify ⟨("too many redirects or authentication replays").data ++ rest⟩
      = .pushPermissionDenied
          ⟨("too many redirects or authentication replays").data ++ rest⟩ := by
  refine ⟨?_, ?_, ?_, ?_, ?_, ?_⟩ <;>
    simp [fetchClassify, pushErrorClassify, remoteNotExistTest, jsStartsWith,
      List.isPrefixOf]

/-- Claim C4, evaluated at the failing input: with a GitHub connection,
`syncDirection: 'push'`, no token and a well-formed URL, the current
resolver returns an anonymous `RemoteCallbacks` (no error at all), while
the legacy resolver — and the behaviour the repository's tests expect —
throws `UndefinedPersonalAccessTokenError`; with `syncDirection: 'pull'`
the legacy resolver does not throw either. -/
theorem c4_github_token_divergence :
    createCredentialCallback (fun _ => false) c4Options = .ok .anonymous ∧
    createCredentialForGitHub c4Options
      { personalAccessToken := none, privateRepository := none } = .ok none ∧
    createCredentialForGitHubOld c4Options
      { personalAccessToken := none, privateRepository := none }
      = .error .undefinedPersonalAccessToken ∧
    createCredentialForGitHubOld c4PullOptions
      { personalAccessToken := none, privateRepository := none }
      = .ok (.userpassPlaintext ("user") none) := by decide

/-- Counterexample to C6: at `remoteName = "upstream"`,
`remoteBranch = "dev"`, over a repository state where
`refs/remotes/origin/main` sits at the merge base but
`refs/remotes/upstream/dev` does not, the source's validation returns
normally while the spec's parametric validation would throw
`UnfetchedCommitExistsError` — the comparison uses a fixed ref, not the
arguments. -/
theorem c6_fixed_ref_counterexample :
    validatePushResult c6State = .ok () ∧
    validatePushResultPerSpec c6State ("upstream") ("dev")
      = .error .unfetchedCommitExists ∧
    validatePushResult c6State
      ≠ validatePushResultPerSpec c6State ("upstream") ("dev") := by decide

/-- Claim C6 as amended: the post-push validation always re-fetches the
remote named `origin` and always compares against
`refs/remotes/origin/main`, for every repository state — it coincides
with the spec's parametric validation exactly at `origin`/`main`,
independent of the `remoteName`/`remoteBranch` given to `push`. -/
theorem c6_amended_validation_fixed_origin_main (st : GitState) :
    validatePushResult st = validatePushResultPerSpec st ("origin") ("main") := by
  have h : ("refs/remotes/" ++ "origin" ++ "/" ++ "main" : String)
      = "refs/remotes/origin/main" := by decide
  unfold validatePushResult validatePushResultPerSpec
  rw [h]

/-- Claim C7: when the named remote does not exist, the native fetch
rejects with libgit2's `remote '<name>' does not exist` message and
`fetch` classifies it as `InvalidGitRemoteError` — for every connection
setting whose credential resolution succeeds — after exactly one native
attempt (the plugin's `fetch` has no retry loop). -/
theorem c7_fetch_missing_remote (fsExistsSync : String → Bool)
    (nativeFetch : String → Option String) (remoteOptions : RemoteOptions)
    (remoteName : String) (callbacks : Callbacks)
    (hcred : createCredentialCallback fsExistsSync remoteOptions = .ok callbacks)
    (hname : remoteName.data ≠ [])
    (hchars : ∀ c ∈ remoteName.data, ¬(c = '\n' ∨ c = '\r'))
    (hnative : nativeFetch remoteName
      = some ("remote '" ++ remoteName ++ "' does not exist")) :
    fetch fsExistsSync nativeFetch remoteOptions remoteName
      = { result := .error (.invalidGitRemote
            ("remote '" ++ remoteName ++ "' does not exist"))
          nativeFetchCalls := 1, cleanupCalled := true } := by
  unfold fetch
  rw [hcred, hnative]
  have hre := remoteNotExistTest_matches remoteName hname hchars
  simp [fetchClassify, hre]

/-- Witness for C7 at the default remote name `origin` with the `none`
connection type. -/
theorem c7_fetch_missing_remote_witness :
    fetch (fun _ => false) (fun n => some ("remote '" ++ n ++ "' does not exist"))
      c7Options ("origin")
      = { result := .error (.invalidGitRemote
            ("remote '" ++ "origin" ++ "' does not exist"))
          nativeFetchCalls := 1, cleanupCalled := true } := by
  exact c7_fetch_missing_remote (fun _ => false)
    (fun n => some ("remote '" ++ n ++ "' does not exist")) c7Options ("origin")
    .anonymous rfl (by decide) (by decide) rfl

/-- Claim C8: SSH credential resolution fails with
`InvalidSSHKeyPathError` when either key path is undefined or does not
exist on disk — surfacing from `fetch` before any native call — and when
both paths exist an unset `passPhrase` defaults to the empty string in
the built credential. -/
theorem c8_ssh_keypath_check (fsExistsSync : String → Bool)
    (nativeFetch : String → Option String) (remoteOptions : RemoteOptions)
    (remoteName : String) (s : ConnectionSettingsSSH)
    (hconn : remoteOptions.connection = some (.ssh s)) :
    ((s.privateKeyPath = none ∨ fsExistsSync (s.privateKeyPath.getD "") = false ∨
      s.publicKeyPath = none ∨ fsExistsSync (s.publicKeyPath.getD "") = false) →
      fetch fsExistsSync nativeFetch remoteOptions remoteName
        = { result := .error .invalidSSHKeyPath, nativeFetchCalls := 0
            cleanupCalled := false }) ∧
    (∀ priv pub, s.privateKeyPath = some priv → s.publicKeyPath = some pub →
      fsExistsSync priv = true → fsExistsSync pub = true → s.passPhrase = none →
      createCredentialForSSH fsExistsSync s
        = .ok (.sshKey s.publicKeyPath s.privateKeyPath (""))) := by
  refine ⟨?_, ?_⟩
  · intro h
    have hkey : createCredentialForSSH fsExistsSync s = .error .invalidSSHKeyPath := by
      rcases h with h | h | h | h
      · simp [createCredentialForSSH, h]
      · simp [createCredentialForSSH, h]
      · by_cases hp : s.privateKeyPath = none ∨
            fsExistsSync (s.privateKeyPath.getD "") = false
        · simp [createCredentialForSSH, hp]
        · simp [createCredentialForSSH, hp, h]
      · by_cases hp : s.privateKeyPath = none ∨
            fsExistsSync (s.privateKeyPath.getD "") = false
        · simp [createCredentialForSSH, hp]
        · simp [createCredentialForSSH, hp, h]
    unfold fetch createCredentialCallback
    rw [hconn]
    simp [hkey]
  · intro priv pub hpriv hpub he1 he2 hpp
    simp [createCredentialForSSH, hpriv, hpub, he1, he2, hpp]

/-- Witness for C8: a missing private key makes `fetch` fail with
`InvalidSSHKeyPathError` and no native call, and with both keys present
the credential carries the defaulted empty passphrase. -/
theorem c8_ssh_keypath_check_witness :
    fetch c8Fs (fun _ => none) c8OptionsBad ("origin")
      = { result := .error .invalidSSHKeyPath, nativeFetchCalls := 0
          cleanupCalled := false } ∧
    createCredentialForSSH c8Fs c8SshGood
      = .ok (.sshKey (some "/keys/id.pub") (some "/keys/id") ("")) := by
  refine ⟨?_, ?_⟩
  · exact (c8_ssh_keypath_check c8Fs (fun _ => none) c8OptionsBad ("origin")
      c8SshBad rfl).1 (Or.inr (Or.inl (by decide)))
  · exact (c8_ssh_keypath_check c8Fs (fun _ => none) c8OptionsGood ("origin")
      c8SshGood rfl).2 ("/keys/id") ("/keys/id.pub") rfl rfl (by decide)
      (by decide) rfl

/-- Counterexample to C9: the legacy `fetch` kept in the sources rethrows
the native failure inside `.catch`, so its `repos.cleanup()` is never
reached on the error exit path — the resource is not released on every
exit path of every fetch invocation. -/
theorem c9_cleanup_counterexample :
    (fetchLegacy (fun _ => false) (fun _ => some ("fetch failed"))
      c7Options).cleanupCalled = false ∧
    (fetchLegacy (fun _ => false) (fun _ => some ("fetch failed"))
      c7Options).result = .error (.gitFetchError ("fetch failed")) := by decide

/-- Claim C9 as amended: the current plugin's `fetch` (cleanup before
classification) and `push` (cleanup in `.finally`) release the repository
resource on every exit path of the native transfer attempt, for every
outcome; the legacy `fetch` releases only on the success path, and the
legacy `push` releases on no failing path at all. -/
theorem c9_amended_cleanup_paths (fsExistsSync : String → Bool)
    (nativeFetch : String → Option String) (remoteOptions : RemoteOptions)
    (remoteName localBranch remoteBranch : String)
    (nativePush : String → String → PushNativeResult) (st : GitState)
    (callbacks : Callbacks) (credOld : Option Cred)
    (hcred : createCredentialCallback fsExistsSync remoteOptions = .ok callbacks)
    (hcredOld : createCredentialOld fsExistsSync remoteOptions = .ok credOld) :
    (fetch fsExistsSync nativeFetch remoteOptions remoteName).cleanupCalled
      = true ∧
    (push fsExistsSync remoteOptions remoteName localBranch remoteBranch
      nativePush st).cleanupCalled = true ∧
    (∀ message, (fetchLegacy fsExistsSync (fun _ => some message)
      remoteOptions).cleanupCalled = false) ∧
    (fetchLegacy fsExistsSync (fun _ => none) remoteOptions).cleanupCalled
      = true ∧
    (∀ message, (pushLegacy fsExistsSync remoteOptions (.failure message)
      st).cleanupCalled = false) := by
  refine ⟨?_, ?_, ?_, ?_, ?_⟩
  · unfold fetch
    rw [hcred]
    cases h : fetchClassify (nativeFetch remoteName) <;> simp [h]
  · unfold push
    rw [hcred]
    cases hn : nativePush remoteName (localBranch ++ ":" ++ remoteBranch) with
    | failure message =>
      by_cases hr : jsStartsWith message pushRaceMessage = true <;> simp [hr]
    | success code => simp
  · intro message
    unfold fetchLegacy
    rw [hcredOld]
  · unfold fetchLegacy
    rw [hcredOld]
  · intro message
    unfold pushLegacy
    rw [hcredOld]
    by_cases hr : jsStartsWith message pushRaceMessage = true <;> simp [hr]

/-- Witness for the amended C9 over the `none` connection fixture. -/
theorem c9_amended_cleanup_paths_witness :
    (fetch (fun _ => false) (fun _ => none) c7Options ("origin")).cleanupCalled
      = true ∧
    (push (fun _ => false) c7Options ("origin") ("refs/heads/main")
      ("refs/heads/main") (fun _ _ => .success 0) c1StateNoBase).cleanupCalled
      = true ∧
    (fetchLegacy (fun _ => false) (fun _ => some ("x")) c7Options).cleanupCalled
      = false ∧
    (fetchLegacy (fun _ => false) (fun _ => none) c7Options).cleanupCalled
      = true ∧
    (pushLegacy (fun _ => false) c7Options (.failure ("y"))
      c1StateNoBase).cleanupCalled = false := by
  have h := c9_amended_cleanup_paths (fun _ => false) (fun _ => none) c7Options
    ("origin") ("refs/heads/main") ("refs/heads/main") (fun _ _ => .success 0)
    c1StateNoBase .anonymous none rfl rfl
  exact ⟨h.1, h.2.1, h.2.2.1 ("x"), h.2.2.2.1, h.2.2.2.2 ("y")⟩

end RemoteNodegit
